import Mathlib

/-!
Verification development for the Movie Matchmaker hybrid recommendation
engine (src/src/utils/recommendationEngine.ts, src/src/utils/tmdb.ts — which
also contains the Gemini module — and src/src/App.tsx).

External collaborators (the TMDB catalog service, the Gemini generative
service, JS `Date` parsing) are modelled as oracles packaged in an `Env`
structure; every piece of decision logic of the repository itself is
translated function-by-function.  JS numbers appearing in score arithmetic
are modelled as rationals (`Rat`), `Math.round` as `⌊q + 1/2⌋`, and JS
string-falsiness (`''` is falsy) is modelled explicitly.
-/

/-- Rational addition written out on numerators and denominators.  The
library's `Rat.add` is `@[irreducible]`; this computable clone is proved
equal to `+` in `qAdd_eq_add` below and lets concrete score values be
checked by `decide`. -/
def qAdd (a b : Rat) : Rat :=
  mkRat (a.num * (b.den : Int) + b.num * (a.den : Int)) (a.den * b.den)

/-- Rational multiplication written out on numerators and denominators;
proved equal to `*` in `qMul_eq_mul` below. -/
def qMul (a b : Rat) : Rat := mkRat (a.num * b.num) (a.den * b.den)

/-- Division of a rational by a natural number, written out on the
denominator; proved equal to `/ n` (for `n ≠ 0`) in `qDivNat_eq_div`
below. -/
def qDivNat (a : Rat) (n : Nat) : Rat := mkRat a.num (a.den * n)

/-- JS `Math.round` on a rational: round half toward positive infinity,
`⌊q + 1/2⌋` (shown by `jsRound_eq_floor` below). -/
def jsRound (q : Rat) : Int := Rat.floor (qAdd q (mkRat 1 2))

/-- JS truthiness of an optional string: `undefined` and `''` are falsy. -/
def jsTruthyS : Option String → Bool
  | none => false
  | some s => s ≠ ""

/-- JS `a || b` for an optional string `a` (with `''` falsy). -/
def jsOrStr (a : Option String) (b : String) : String :=
  match a with
  | none => b
  | some s => if s = "" then b else s

/-- JS `s || b` for a plain string `s` (with `''` falsy). -/
def jsOrStrS (s b : String) : String := if s = "" then b else s

/-- JS `if (x)` guard applied to an optional string parameter: keeps the
value only when truthy (`''` is dropped). -/
def jsOptStr (o : Option String) : Option String :=
  o.bind (fun s => if s = "" then none else some s)

/-- JS `if (x)` guard applied to an optional numeric parameter (`0` is
falsy). -/
def jsOptInt (o : Option Int) : Option Int :=
  o.bind (fun n => if n = 0 then none else some n)

/-- Prefix test on character lists: `chHasPre pat s` holds when `pat` is an
initial segment of `s`. -/
def chHasPre : List Char → List Char → Bool
  | [], _ => true
  | _ :: _, [] => false
  | p :: ps, c :: cs => p == c && chHasPre ps cs

/-- Contiguous-substring test on character lists: `chSub pat s` is JS
`s.includes(pat)`. -/
def chSub (pat : List Char) : List Char → Bool
  | [] => chHasPre pat []
  | c :: cs => chHasPre pat (c :: cs) || chSub pat cs

/-- JS `toLowerCase` (the keyword dictionaries are ASCII), producing the
character list of the lower-cased string. -/
def jsLower (s : String) : List Char := s.data.map Char.toLower

/-- Character-list splitter at separators satisfying `p`, keeping empty
pieces between consecutive separators — the behavior of JS `split` with a
single-character separator, and (for the keyword tokenizer, whose empty
pieces match no non-empty keyword anyway) of splitting on whitespace. -/
def chSplit (p : Char → Bool) : List Char → List Char → List (List Char)
  | [], acc => [acc.reverse]
  | c :: cs, acc =>
    if p c then acc.reverse :: chSplit p cs [] else chSplit p cs (c :: acc)

/-- JS `String.prototype.trim`: drop leading and trailing whitespace. -/
def chTrim (l : List Char) : List Char :=
  ((l.dropWhile Char.isWhitespace).reverse.dropWhile Char.isWhitespace).reverse

/-- The token count `input.trim().split(' ').length` used by
`handleSubmit` in src/src/App.tsx (splitting on single spaces). -/
def tokenCount (input : String) : Nat :=
  (chSplit (fun c => c == ' ') (chTrim input.data) []).length

/-- Media kinds of the caller-facing API (`MediaType` in src/src/types.ts). -/
inductive MediaType where
  | movie
  | tv
  | anime
deriving Repr, DecidableEq

/-- TMDB endpoint kinds: `anime` is mapped onto the TV catalog
(`mediaType === 'anime' ? 'tv' : mediaType`). -/
inductive TMDBKind where
  | movie
  | tv
deriving Repr, DecidableEq

/-- The `'anime' → 'tv'` endpoint mapping used throughout tmdb.ts and
recommendationEngine.ts. -/
def tmdbKindOf : MediaType → TMDBKind
  | MediaType.anime => TMDBKind.tv
  | MediaType.tv => TMDBKind.tv
  | MediaType.movie => TMDBKind.movie

/-- Catalog entry shape (`TMDBMedia` in src/src/utils/tmdb.ts); only fields
the engine reads are retained.  `title`/`name` and the date fields are
optional exactly as in the source. -/
structure TMDBMedia where
  id : Int
  title : Option String
  name : Option String
  overview : String
  release_date : Option String
  first_air_date : Option String
  vote_average : Rat
  popularity : Rat
  genre_ids : List Nat
deriving Repr, DecidableEq

/-- One AI candidate (`AIRecommendation` in the Gemini module). -/
structure AIRecommendation where
  title : String
  year : Option Int
  explanation : String
deriving Repr, DecidableEq

/-- Result of the Gemini call (`GeminiRecommendationResult`). -/
structure GeminiRecommendationResult where
  recommendations : List AIRecommendation
  success : Bool
  error : Option String
deriving Repr, DecidableEq

/-- Environment of the Gemini module: the optional credential
(`VITE_GEMINI_API_KEY`) and the oracle for the model call, which either
fails in transport/parse (`Except.error message`) or yields the decoded
candidate array. -/
structure GenEnv where
  apiKey : Option String
  modelResponse : Except String (List AIRecommendation)

/-- Enrichment data returned by the catalog gateway for one media id:
provider names, trailer keys, and TV season/episode details.  `none` at the
`Env.enrich` level models the `Promise.all` rejection caught by
`buildRecommendation`. -/
structure EnrichData where
  providers : List String
  videoKeys : List String
  tvDetails : Option (Int × Int)
deriving Repr, DecidableEq

/-- Oracle environment for one orchestration call: the Gemini environment,
the catalog's responses (title lookup per AI candidate, raw discover/search
result pages, genre map fetch, per-id enrichment), the recent-releases
feed, and JS `Date` year parsing. -/
structure Env where
  gen : GenEnv
  searchTitleResult : String → Option Int → MediaType → Option TMDBMedia
  genreMapFetch : Option (List (String × Nat))
  discoverResults : List TMDBMedia
  searchTextResults : List TMDBMedia
  enrich : Int → Option EnrichData
  recentReleases : List String
  parseYear : String → Int

/-- Caller-facing options (`RecommendationOptions`). -/
structure RecommendationOptions where
  mediaType : MediaType
  hiddenGems : Bool
  region : String
deriving Repr, DecidableEq

/-- Structured signals produced by the input analyzer (`AnalyzedInput`). -/
structure AnalyzedInput where
  genres : List String
  emotions : List String
  intensity : Nat
  language : Option String
  wantsRecent : Bool
deriving Repr, DecidableEq

/-- Genre keyword dictionary of recommendationEngine.ts, in source order. -/
def genreKeywords : List (String × List String) :=
  [("action", ["action", "fight", "explosion", "adventure", "exciting", "battle"]),
   ("thriller", ["thriller", "suspense", "tension", "mystery", "nail-biting"]),
   ("drama", ["drama", "emotional", "life", "relationship", "touching", "powerful"]),
   ("sci-fi", ["sci-fi", "science fiction", "future", "space", "technology", "dystopia"]),
   ("horror", ["horror", "scary", "frightening", "terrifying", "spooky", "creepy"]),
   ("comedy", ["comedy", "funny", "hilarious", "laugh", "humorous", "witty"]),
   ("romance", ["romance", "love", "romantic", "relationship", "dating", "heart"]),
   ("fantasy", ["fantasy", "magical", "mythical", "supernatural", "enchanted", "wizard"]),
   ("animation", ["animation", "animated", "cartoon", "pixar", "disney", "anime"]),
   ("documentary", ["documentary", "real", "true story", "historical", "educational"]),
   ("crime", ["crime", "detective", "murder", "investigation", "police", "heist"]),
   ("family", ["family", "kids", "children", "wholesome", "all ages"])]

/-- Emotion keyword dictionary, in source order. -/
def emotionKeywords : List (String × List String) :=
  [("suspense", ["suspense", "tension", "nail-biting", "thrilling", "edge"]),
   ("hope", ["hope", "uplifting", "inspiring", "positive", "optimistic"]),
   ("fear", ["scary", "frightening", "horror", "terrifying", "creepy"]),
   ("joy", ["happy", "joyful", "fun", "upbeat", "cheerful", "laugh"]),
   ("sadness", ["sad", "emotional", "touching", "moving", "tearjerker", "cry"]),
   ("anger", ["angry", "revenge", "vengeance", "fury", "rage"]),
   ("wonder", ["amazing", "wonderful", "magical", "spectacular", "mindblowing"])]

/-- Language-name to language-code dictionary, in source (insertion) order. -/
def languageKeywords : List (String × String) :=
  [("hindi", "hi"), ("bengali", "bn"), ("bangla", "bn"), ("telugu", "te"),
   ("tollywood", "te"), ("tamil", "ta"), ("kollywood", "ta"),
   ("malayalam", "ml"), ("kannada", "kn"), ("marathi", "mr"),
   ("punjabi", "pa"), ("korean", "ko"), ("japanese", "ja"),
   ("bollywood", "hi"), ("indian", "hi")]

/-- Recency trigger words of `detectRecency`. -/
def recencyWords : List String :=
  ["new", "latest", "recent", "2024", "2025", "current", "this year", "now playing"]

/-- High-intensity keyword list of `analyzeUserInput`. -/
def highIntensityWords : List String :=
  ["intense", "brutal", "extreme", "violent", "action-packed", "gory", "dark"]

/-- Low-intensity keyword list of `analyzeUserInput`. -/
def lowIntensityWords : List String :=
  ["mild", "gentle", "calm", "peaceful", "slow-paced", "cozy", "light"]

/-- `findKeywordMatches`: a dictionary key is included when any of its
keywords is a substring of any whitespace token of the lower-cased text. -/
def findKeywordMatches (text : String) (dictionary : List (String × List String)) : List String :=
  let words := chSplit (fun c => c.isWhitespace) (jsLower text) []
  (dictionary.filter (fun kv =>
      kv.2.any (fun keyword => words.any (fun word => chSub (jsLower keyword) word)))).map
    (fun kv => kv.1)

/-- `detectLanguage`: first dictionary entry whose name occurs in the
lower-cased text yields its code. -/
def detectLanguage (text : String) : Option String :=
  let lowerText := jsLower text
  (languageKeywords.find? (fun kv => chSub kv.1.data lowerText)).map (fun kv => kv.2)

/-- `detectRecency`: any recency word occurs in the lower-cased text. -/
def detectRecency (text : String) : Bool :=
  let lowerText := jsLower text
  recencyWords.any (fun word => chSub word.data lowerText)

/-- `analyzeUserInput`: keyword classification plus the sequential intensity
assignment — default 5, overwritten by 8 on a high-intensity hit, then
overwritten by 3 on a low-intensity hit. -/
def analyzeUserInput (input : String) : AnalyzedInput :=
  let analysis : AnalyzedInput :=
    { genres := findKeywordMatches input genreKeywords
      emotions := findKeywordMatches input emotionKeywords
      intensity := 5
      language := detectLanguage input
      wantsRecent := detectRecency input }
  let analysis :=
    if highIntensityWords.any (fun word => chSub word.data (jsLower input)) then
      { analysis with intensity := 8 }
    else analysis
  if lowIntensityWords.any (fun word => chSub word.data (jsLower input)) then
    { analysis with intensity := 3 }
  else analysis

/-- `getGenAI` of the Gemini module: throws an explicit configuration error
when the credential is absent, otherwise succeeds (the constructed client is
irrelevant to the control flow modelled here). -/
def getGenAI (apiKey : Option String) : Except String Unit :=
  match apiKey with
  | none => Except.error "VITE_GEMINI_API_KEY is not set in environment variables"
  | some _ => Except.ok ()

/-- `getAIRecommendations`: the whole body — including `getGenAI` — runs
inside one `try/catch`; any thrown error is converted into a typed failure
result.  The model call and JSON decoding are the oracle
`GenEnv.modelResponse`; an empty decoded array raises
`Invalid response format from AI` inside the `try`. -/
def getAIRecommendations (g : GenEnv) : GeminiRecommendationResult :=
  let attempt : Except String (List AIRecommendation) := do
    let _ ← getGenAI g.apiKey
    let parsed ← g.modelResponse
    if parsed.length = 0 then
      throw "Invalid response format from AI"
    else
      pure parsed
  match attempt with
  | Except.ok parsed =>
      { recommendations := parsed.take 5, success := true, error := none }
  | Except.error e =>
      { recommendations := [], success := false, error := some e }

/-- The TMDB Animation genre id used for anime detection. -/
def ANIMATION_GENRE_ID : Nat := 16

/-- Discover-query parameters assembled by `searchMedia` (only the
dynamically chosen fields; `api_key`, `page` and `include_adult` are
constants in the source). -/
structure DiscoverParams where
  sortBy : String
  voteCountGte : Nat
  withGenres : Option (List Nat)
  withOriginalLanguage : Option String
  region : Option String
  primaryReleaseYear : Option Int
  firstAirDateYear : Option Int
deriving Repr, DecidableEq

/-- Search options passed to `searchMedia` (`SearchOptions` in tmdb.ts). -/
structure SearchOptions where
  mediaType : MediaType
  genres : List String
  language : Option String
  region : Option String
  hiddenGems : Bool
  year : Option Int
deriving Repr, DecidableEq

/-- The combine-and-deduplicate loop of `searchMedia`: walk the
concatenated discover+search results, skip ids already seen, skip non-anime
results in anime mode (without marking them seen), keep first occurrences
in order. -/
def dedupFilterResults (mediaType : MediaType) : List TMDBMedia → List Int → List TMDBMedia
  | [], _ => []
  | item :: rest, seen =>
    if seen.contains item.id then
      dedupFilterResults mediaType rest seen
    else if mediaType = MediaType.anime ∧ ¬ item.genre_ids.contains ANIMATION_GENRE_ID then
      dedupFilterResults mediaType rest seen
    else
      item :: dedupFilterResults mediaType rest (item.id :: seen)

/-- `searchMedia` of tmdb.ts: fetch the genre map (failure — modelled as
`Env.genreMapFetch = none` — is caught and yields `[]` with no discover
query issued), build the discover parameters, issue the two queries (their
responses are the `Env` oracles), and union the results with
deduplication.  The second component records the discover parameters
actually used, `none` when no discover query was issued. -/
def searchMedia (env : Env) (query : String) (options : SearchOptions) :
    List TMDBMedia × Option DiscoverParams :=
  let tmdbMediaType := tmdbKindOf options.mediaType
  match env.genreMapFetch with
  | none => ([], none)
  | some genreMap =>
    let genreIds0 :=
      options.genres.filterMap (fun genre => genreMap.lookup (String.mk (jsLower genre)))
    let genreIds :=
      if options.mediaType = MediaType.anime ∧ ¬ genreIds0.contains ANIMATION_GENRE_ID then
        genreIds0 ++ [ANIMATION_GENRE_ID]
      else genreIds0
    let sortBy := if options.hiddenGems then "vote_average.desc" else "popularity.desc"
    let voteCountMin : Nat := if options.hiddenGems then 50 else 100
    let params : DiscoverParams :=
      { sortBy := sortBy
        voteCountGte := voteCountMin
        withGenres := if genreIds.length > 0 then some genreIds else none
        withOriginalLanguage :=
          if options.mediaType = MediaType.anime then some "ja"
          else jsOptStr options.language
        region := jsOptStr options.region
        primaryReleaseYear :=
          if tmdbMediaType = TMDBKind.movie then jsOptInt options.year else none
        firstAirDateYear :=
          if tmdbMediaType = TMDBKind.tv then jsOptInt options.year else none }
    let allResults := env.discoverResults ++ env.searchTextResults
    (dedupFilterResults options.mediaType allResults [], some params)

/-- Final recommendation record (`MediaRecommendation` in types.ts); fields
with no bearing on any decision logic (logos, backdrop URL, the constant
empty `genres`/`emotions`/`themes` arrays, the constant `intensity: 5`) are
omitted. -/
structure MediaRecommendation where
  id : Int
  title : String
  year : Int
  plot : String
  rating : Rat
  streamingPlatforms : List String
  matchPercentage : Int
  aiExplanation : Option String
  trailerKey : Option String
  mediaType : MediaType
  numberOfSeasons : Option Int
  numberOfEpisodes : Option Int
deriving Repr, DecidableEq

/-- `buildRecommendation`: resolve title/date fallbacks, fan out the
enrichment calls (their joint outcome is the `Env.enrich` oracle; `none`
models the caught `Promise.all` rejection, yielding `null`), and assemble
the record.  The base match percentage is 85 exactly when the
`aiExplanation` argument is JS-truthy, else 70. -/
def buildRecommendation (env : Env) (media : TMDBMedia) (mediaType : MediaType)
    (region : String) (aiExplanation : Option String) : Option MediaRecommendation :=
  let tmdbType := tmdbKindOf mediaType
  let title := jsOrStr media.title (jsOrStr media.name "Unknown")
  let releaseDate := jsOrStr media.release_date (jsOrStr media.first_air_date "")
  let year : Int := if releaseDate = "" then 0 else env.parseYear releaseDate
  match env.enrich media.id with
  | none => none
  | some e =>
    let tvDetails := if tmdbType = TMDBKind.tv then e.tvDetails else none
    some
      { id := media.id
        title := title
        year := year
        plot := jsOrStrS media.overview "No description available."
        rating := media.vote_average
        streamingPlatforms := e.providers
        matchPercentage := if jsTruthyS aiExplanation then 85 else 70
        aiExplanation := aiExplanation
        trailerKey := e.videoKeys.head?
        mediaType := mediaType
        numberOfSeasons := tvDetails.map (fun d => d.1)
        numberOfEpisodes := tvDetails.map (fun d => d.2) }

/-- `processAIRecommendations`: sequentially resolve each AI candidate via
`searchByTitle` (the `Env.searchTitleResult` oracle, already reduced to
first-match-or-none) and build its record; unresolved or failed candidates
are silently dropped. -/
def processAIRecommendations (env : Env) (aiRecs : List AIRecommendation)
    (mediaType : MediaType) (region : String) : List MediaRecommendation :=
  aiRecs.filterMap (fun rec =>
    match env.searchTitleResult rec.title rec.year mediaType with
    | none => none
    | some media => buildRecommendation env media mediaType region (some rec.explanation))

/-- The heuristic match-score formula of `getHeuristicRecommendations`:
base 60, plus rating×2 capped at 20, plus popularity/100 capped at 20,
capped at 100 overall, then `Math.round`ed. -/
def heuristicScore (vote_average popularity : Rat) : Int :=
  jsRound (min 100 (qAdd (qAdd 60 (min 20 (qMul vote_average 2))) (min 20 (qDivNat popularity 100))))

/-- The `searchOptions` object `getHeuristicRecommendations` passes to
`searchMedia`: analyzed genre tags and language, caller region and
hidden-gems flag, no year filter. -/
def heuristicSearchOptions (analysis : AnalyzedInput) (options : RecommendationOptions) :
    SearchOptions :=
  { mediaType := options.mediaType
    genres := analysis.genres
    language := analysis.language
    region := some options.region
    hiddenGems := options.hiddenGems
    year := none }

/-- `getHeuristicRecommendations`: one `searchMedia` call with the analyzed
signals, then a record per successful build of the first (up to) 10
results, with the heuristic score overwriting the base match percentage. -/
def getHeuristicRecommendations (env : Env) (query : String) (analysis : AnalyzedInput)
    (options : RecommendationOptions) : List MediaRecommendation :=
  let mediaItems := (searchMedia env query (heuristicSearchOptions analysis options)).1
  (mediaItems.take 10).filterMap (fun media =>
    (buildRecommendation env media options.mediaType options.region none).map
      (fun fullRec =>
        { fullRec with
          matchPercentage := heuristicScore media.vote_average media.popularity }))

/-- One step of the stable descending sort: insert `r` after every element
whose match percentage is ≥ `r`'s (so earlier records win ties), before the
first strictly smaller one.  This realizes the ECMAScript stable sort with
comparator `(a, b) => b.matchPercentage - a.matchPercentage`. -/
def insertByMatch (r : MediaRecommendation) :
    List MediaRecommendation → List MediaRecommendation
  | [] => [r]
  | x :: xs =>
    if r.matchPercentage ≤ x.matchPercentage then x :: insertByMatch r xs
    else r :: x :: xs

/-- Stable sort, descending by match percentage, realizing
`.sort((a, b) => b.matchPercentage - a.matchPercentage)`. -/
def sortByMatchDesc (l : List MediaRecommendation) : List MediaRecommendation :=
  l.foldl (fun acc r => insertByMatch r acc) []

/-- Per-call trace of the external calls `getRecommendations` issues, for
stating which gateways were invoked. -/
structure CallTrace where
  recentCalls : Nat
  aiCalls : Nat
  searchMediaCalls : Nat
deriving Repr, DecidableEq

/-- The AI-path result list of `getRecommendations`: the records obtained by
resolving and building the AI candidates, or `[]` when the AI call failed or
returned no candidates. -/
def aiResolved (env : Env) (options : RecommendationOptions) : List MediaRecommendation :=
  let aiResult := getAIRecommendations env.gen
  if aiResult.success = true ∧ aiResult.recommendations.length > 0 then
    processAIRecommendations env aiResult.recommendations options.mediaType options.region
  else []

/-- The `recommendations` list of `getRecommendations` after the optional
heuristic fallback and merge (heuristic records whose id is already present
in the AI-path list are skipped — note `existingIds` is computed once,
before the merge loop), still before filter/sort/truncate. -/
def mergedList (env : Env) (userInput : String) (options : RecommendationOptions) :
    List MediaRecommendation :=
  let recs0 := aiResolved env options
  if recs0.length < 3 then
    let heuristicResults :=
      getHeuristicRecommendations env userInput (analyzeUserInput userInput) options
    let existingIds := recs0.map (fun r => r.id)
    recs0 ++ heuristicResults.filter (fun r => ! existingIds.contains r.id)
  else recs0

/-- The pre-sort list (merged records surviving the > 30 filter, in
insertion order) — the list `getRecommendations` hands to the stable sort. -/
def preSortList (env : Env) (userInput : String) (options : RecommendationOptions) :
    List MediaRecommendation :=
  (mergedList env userInput options).filter (fun r => 30 < r.matchPercentage)

/-- `getRecommendations` of recommendationEngine.ts: analyze, optionally
fetch recency context, attempt the AI path, fall back to the heuristic path
when fewer than 3 records resulted (the merge is `mergedList`), then filter
(> 30), stable-sort descending, and truncate to 7.  The second component
traces the external calls made. -/
def getRecommendations (env : Env) (userInput : String) (options : RecommendationOptions) :
    List MediaRecommendation × CallTrace :=
  let analysis := analyzeUserInput userInput
  let _freshContext : Option (List String) :=
    if analysis.wantsRecent then some (env.recentReleases.take 15) else none
  let recentCalls := if analysis.wantsRecent then 1 else 0
  let searchMediaCalls := if (aiResolved env options).length < 3 then 1 else 0
  ((sortByMatchDesc (preSortList env userInput options)).take 7,
   { recentCalls := recentCalls, aiCalls := 1, searchMediaCalls := searchMediaCalls })

/-- `handleSubmit` of src/src/App.tsx: reject inputs whose trimmed text
splits (on single spaces) into fewer than 3 tokens, without invoking
`getRecommendations`; otherwise delegate to it. -/
def handleSubmit (env : Env) (input : String) (options : RecommendationOptions) :
    Option (List MediaRecommendation × CallTrace) :=
  if tokenCount input < 3 then none
  else some (getRecommendations env input options)

/-! ### Concrete environments for witnesses and counterexamples -/

/-- A catalog entry with id 1. -/
def mediaA : TMDBMedia :=
  { id := 1, title := some "A", name := none, overview := "Plot A", release_date := none,
    first_air_date := none, vote_average := 7, popularity := 0, genre_ids := [] }

/-- A catalog entry with id 2. -/
def mediaB : TMDBMedia :=
  { id := 2, title := some "B", name := none, overview := "Plot B", release_date := none,
    first_air_date := none, vote_average := 6, popularity := 0, genre_ids := [] }

/-- A catalog entry with id 3. -/
def mediaC : TMDBMedia :=
  { id := 3, title := some "C", name := none, overview := "Plot C", release_date := none,
    first_air_date := none, vote_average := 5, popularity := 0, genre_ids := [] }

/-- A catalog entry with id 9, rating 8, appearing in discover results. -/
def mediaH : TMDBMedia :=
  { id := 9, title := some "H", name := none, overview := "Plot H", release_date := none,
    first_air_date := none, vote_average := 8, popularity := 0, genre_ids := [] }

/-- Enrichment oracle that always succeeds with empty providers/videos. -/
def enrichAll : Int → Option EnrichData :=
  fun _ => some { providers := [], videoKeys := [], tvDetails := none }

/-- Default caller options: movies, no hidden gems, region IN. -/
def optsMovie : RecommendationOptions :=
  { mediaType := MediaType.movie, hiddenGems := false, region := "IN" }

/-- Environment where the AI path succeeds with three distinct resolvable
candidates (no fallback). -/
def envA : Env :=
  { gen := { apiKey := some "key",
             modelResponse := Except.ok
               [{ title := "A", year := none, explanation := "fits well" },
                { title := "B", year := none, explanation := "fits too" },
                { title := "C", year := none, explanation := "also fits" }] }
    searchTitleResult := fun t _ _ =>
      if t = "A" then some mediaA
      else if t = "B" then some mediaB
      else if t = "C" then some mediaC else none
    genreMapFetch := none
    discoverResults := []
    searchTextResults := []
    enrich := enrichAll
    recentReleases := []
    parseYear := fun _ => 0 }

/-- The record the AI path builds from `mediaA` in `envA`. -/
def recA : MediaRecommendation :=
  { id := 1, title := "A", year := 0, plot := "Plot A", rating := 7, streamingPlatforms := [],
    matchPercentage := 85, aiExplanation := some "fits well", trailerKey := none,
    mediaType := MediaType.movie, numberOfSeasons := none, numberOfEpisodes := none }

/-- The record the heuristic path builds from `mediaB` with no rationale. -/
def recB70 : MediaRecommendation :=
  { id := 2, title := "B", year := 0, plot := "Plot B", rating := 6, streamingPlatforms := [],
    matchPercentage := 70, aiExplanation := none, trailerKey := none,
    mediaType := MediaType.movie, numberOfSeasons := none, numberOfEpisodes := none }

/-- The heuristic record built from `mediaH`: 60 + min(20, 8×2) + min(20, 0/100) = 76. -/
def recH : MediaRecommendation :=
  { id := 9, title := "H", year := 0, plot := "Plot H", rating := 8, streamingPlatforms := [],
    matchPercentage := 76, aiExplanation := none, trailerKey := none,
    mediaType := MediaType.movie, numberOfSeasons := none, numberOfEpisodes := none }

/-- Environment where two distinct AI candidates resolve (via title lookup)
to the same catalog entry `mediaA`. -/
def envDup : Env :=
  { gen := { apiKey := some "key",
             modelResponse := Except.ok
               [{ title := "A", year := none, explanation := "x" },
                { title := "A remake", year := none, explanation := "y" }] }
    searchTitleResult := fun _ _ _ => some mediaA
    genreMapFetch := none
    discoverResults := []
    searchTextResults := []
    enrich := enrichAll
    recentReleases := []
    parseYear := fun _ => 0 }

/-- Environment with the generative-service credential absent and one
heuristic discover result. -/
def envNoKey : Env :=
  { gen := { apiKey := none,
             modelResponse := Except.ok [{ title := "A", year := none, explanation := "x" }] }
    searchTitleResult := fun _ _ _ => some mediaA
    genreMapFetch := some []
    discoverResults := [mediaH]
    searchTextResults := []
    enrich := enrichAll
    recentReleases := []
    parseYear := fun _ => 0 }

/-- Same as `envNoKey` but with the credential present and a transport
failure of the model call. -/
def envFail : Env :=
  { gen := { apiKey := some "key", modelResponse := Except.error "network error" }
    searchTitleResult := fun _ _ _ => some mediaA
    genreMapFetch := some []
    discoverResults := [mediaH]
    searchTextResults := []
    enrich := enrichAll
    recentReleases := []
    parseYear := fun _ => 0 }

/-- Analyzed signals with no tags (what an input matching no keywords
yields). -/
def analysis0 : AnalyzedInput :=
  { genres := [], emotions := [], intensity := 5, language := none, wantsRecent := false }

/-- Hidden-gems search options (no genre tags). -/
def soHidden : SearchOptions :=
  { mediaType := MediaType.movie, genres := [], language := none, region := none,
    hiddenGems := true, year := none }

/-- Non-hidden-gems search options (no genre tags). -/
def soPopular : SearchOptions :=
  { mediaType := MediaType.movie, genres := [], language := none, region := none,
    hiddenGems := false, year := none }

/-- The discover parameters of `soHidden`. -/
def pHidden : DiscoverParams :=
  { sortBy := "vote_average.desc", voteCountGte := 50, withGenres := none,
    withOriginalLanguage := none, region := none, primaryReleaseYear := none,
    firstAirDateYear := none }

/-! ### Bridge lemmas: the computable rational arithmetic equals the standard one -/

theorem qAdd_eq_add (a b : Rat) : qAdd a b = a + b := by
  have ha : ((a.den : Nat) : Rat) ≠ 0 := Nat.cast_ne_zero.mpr a.den_nz
  have hb : ((b.den : Nat) : Rat) ≠ 0 := Nat.cast_ne_zero.mpr b.den_nz
  rw [qAdd, Rat.mkRat_eq_div]
  conv_rhs => rw [← Rat.num_div_den a, ← Rat.num_div_den b, div_add_div _ _ ha hb]
  push_cast
  ring

theorem qMul_eq_mul (a b : Rat) : qMul a b = a * b := by
  rw [qMul, Rat.mkRat_eq_div]
  conv_rhs => rw [← Rat.num_div_den a, ← Rat.num_div_den b, div_mul_div_comm]
  push_cast
  ring

theorem qDivNat_eq_div (a : Rat) (n : Nat) : qDivNat a n = a / n := by
  rw [qDivNat, Rat.mkRat_eq_div]
  conv_rhs => rw [← Rat.num_div_den a, div_div]
  push_cast
  ring

theorem ratFloor_eq_intFloor (q : Rat) : q.floor = ⌊q⌋ := by
  rw [Rat.floor_def]
  exact Rat.floor_def' q

theorem jsRound_eq_floor (q : Rat) : jsRound q = ⌊q + 1/2⌋ := by
  have h2 : mkRat 1 2 = (1 : Rat) / 2 := by
    rw [Rat.mkRat_eq_div]; norm_num
  rw [jsRound, ratFloor_eq_intFloor, qAdd_eq_add, h2]

theorem heuristicScore_eq (vote_average popularity : Rat) :
    heuristicScore vote_average popularity =
      ⌊min 100 (60 + min 20 (vote_average * 2) + min 20 (popularity / 100)) + 1/2⌋ := by
  rw [heuristicScore, jsRound_eq_floor, qAdd_eq_add, qAdd_eq_add, qMul_eq_mul, qDivNat_eq_div]
  norm_num

/-! ### Properties of the stable descending sort -/

theorem mem_insertByMatch {y r : MediaRecommendation} {l : List MediaRecommendation} :
    y ∈ insertByMatch r l ↔ y = r ∨ y ∈ l := by
  induction l with
  | nil => simp [insertByMatch]
  | cons x xs ih =>
    by_cases h : r.matchPercentage ≤ x.matchPercentage
    · simp only [insertByMatch, if_pos h, List.mem_cons, ih]
      tauto
    · simp only [insertByMatch, if_neg h, List.mem_cons]

theorem insertByMatch_pairwise {r : MediaRecommendation} {l : List MediaRecommendation}
    (h : l.Pairwise (fun a b => b.matchPercentage ≤ a.matchPercentage)) :
    (insertByMatch r l).Pairwise (fun a b => b.matchPercentage ≤ a.matchPercentage) := by
  induction l with
  | nil => simp [insertByMatch]
  | cons x xs ih =>
    rcases List.pairwise_cons.mp h with ⟨hx, hxs⟩
    by_cases hle : r.matchPercentage ≤ x.matchPercentage
    · simp only [insertByMatch, if_pos hle]
      refine List.pairwise_cons.mpr ⟨?_, ih hxs⟩
      intro y hy
      rcases mem_insertByMatch.mp hy with rfl | hy'
      · exact hle
      · exact hx y hy'
    · simp only [insertByMatch, if_neg hle]
      refine List.pairwise_cons.mpr ⟨?_, h⟩
      intro y hy
      rcases List.mem_cons.mp hy with rfl | hy'
      · exact le_of_lt (lt_of_not_le hle)
      · exact le_trans (hx y hy') (le_of_lt (lt_of_not_le hle))

theorem insertByMatch_perm (r : MediaRecommendation) (l : List MediaRecommendation) :
    List.Perm (insertByMatch r l) (r :: l) := by
  induction l with
  | nil => simp [insertByMatch]
  | cons x xs ih =>
    by_cases hle : r.matchPercentage ≤ x.matchPercentage
    · simp only [insertByMatch, if_pos hle]
      exact (ih.cons x).trans (List.Perm.swap r x xs)
    · simp only [insertByMatch, if_neg hle]
      exact List.Perm.refl _

theorem sortAux_pairwise (l : List MediaRecommendation) :
    ∀ acc, acc.Pairwise (fun a b => b.matchPercentage ≤ a.matchPercentage) →
      (l.foldl (fun acc r => insertByMatch r acc) acc).Pairwise
        (fun a b => b.matchPercentage ≤ a.matchPercentage) := by
  induction l with
  | nil => intro acc h; simpa using h
  | cons r l ih => intro acc h; exact ih _ (insertByMatch_pairwise h)

theorem sortByMatchDesc_pairwise (l : List MediaRecommendation) :
    (sortByMatchDesc l).Pairwise (fun a b => b.matchPercentage ≤ a.matchPercentage) :=
  sortAux_pairwise l [] List.Pairwise.nil

theorem sortAux_perm (l : List MediaRecommendation) :
    ∀ acc, List.Perm (l.foldl (fun acc r => insertByMatch r acc) acc) (acc ++ l) := by
  induction l with
  | nil => intro acc; simp
  | cons r l ih =>
    intro acc
    refine ((ih (insertByMatch r acc)).trans ?_)
    exact ((insertByMatch_perm r acc).append_right l).trans List.perm_middle.symm

theorem sortByMatchDesc_perm (l : List MediaRecommendation) :
    List.Perm (sortByMatchDesc l) l := by
  simpa using sortAux_perm l []

theorem filter_insertByMatch (v : Int) {r : MediaRecommendation} {l : List MediaRecommendation}
    (h : l.Pairwise (fun a b => b.matchPercentage ≤ a.matchPercentage)) :
    (insertByMatch r l).filter (fun x => x.matchPercentage == v) =
      if r.matchPercentage == v then
        l.filter (fun x => x.matchPercentage == v) ++ [r]
      else l.filter (fun x => x.matchPercentage == v) := by
  induction l with
  | nil =>
    by_cases hr : r.matchPercentage == v <;> simp [insertByMatch, hr]
  | cons x xs ih =>
    rcases List.pairwise_cons.mp h with ⟨hx, hxs⟩
    by_cases hle : r.matchPercentage ≤ x.matchPercentage
    · simp only [insertByMatch, if_pos hle, List.filter_cons]
      rw [ih hxs]
      by_cases hr : r.matchPercentage == v <;> by_cases hxv : x.matchPercentage == v <;>
        simp [hr, hxv]
    · simp only [insertByMatch, if_neg hle, List.filter_cons]
      by_cases hr : r.matchPercentage == v
      · have hlt : x.matchPercentage < r.matchPercentage := lt_of_not_le hle
        have hveq : r.matchPercentage = v := by simpa using hr
        have hnil : (xs.filter (fun y => y.matchPercentage == v)) = [] := by
          rw [List.filter_eq_nil_iff]
          intro y hy
          have : y.matchPercentage ≤ x.matchPercentage := hx y hy
          simp only [beq_iff_eq]
          omega
        have hxv : (x.matchPercentage == v) = false := by
          simp only [beq_eq_false_iff_ne, ne_eq]
          omega
        simp [hr, hxv, hnil]
      · simp [hr]

theorem sortAux_filter (v : Int) (l : List MediaRecommendation) :
    ∀ acc, acc.Pairwise (fun a b => b.matchPercentage ≤ a.matchPercentage) →
      (l.foldl (fun acc r => insertByMatch r acc) acc).filter
          (fun x => x.matchPercentage == v) =
        acc.filter (fun x => x.matchPercentage == v) ++
          l.filter (fun x => x.matchPercentage == v) := by
  induction l with
  | nil => intro acc h; simp
  | cons r l ih =>
    intro acc h
    have step : List.foldl (fun acc r => insertByMatch r acc) acc (r :: l) =
        List.foldl (fun acc r => insertByMatch r acc) (insertByMatch r acc) l := rfl
    rw [step, ih _ (insertByMatch_pairwise h), filter_insertByMatch v h, List.filter_cons]
    by_cases hr : r.matchPercentage == v <;> simp [hr]

theorem sortByMatchDesc_filter (v : Int) (l : List MediaRecommendation) :
    (sortByMatchDesc l).filter (fun x => x.matchPercentage == v) =
      l.filter (fun x => x.matchPercentage == v) := by
  simpa using sortAux_filter v l [] List.Pairwise.nil

/-! ### Helper lemmas about the builder and the two candidate paths -/

theorem buildRecommendation_fields {env : Env} {media : TMDBMedia} {mediaType : MediaType}
    {region : String} {aiExplanation : Option String} {r : MediaRecommendation}
    (h : buildRecommendation env media mediaType region aiExplanation = some r) :
    r.id = media.id ∧
      r.matchPercentage = (if jsTruthyS aiExplanation then 85 else 70) ∧
      r.aiExplanation = aiExplanation := by
  cases hE : env.enrich media.id with
  | none =>
    simp only [buildRecommendation, hE] at h
    exact Option.noConfusion h
  | some e =>
    simp only [buildRecommendation, hE, Option.some.injEq] at h
    subst h
    exact ⟨rfl, rfl, rfl⟩

theorem processAIRecommendations_mem {env : Env} {aiRecs : List AIRecommendation}
    {mediaType : MediaType} {region : String} {r : MediaRecommendation}
    (h : r ∈ processAIRecommendations env aiRecs mediaType region) :
    r.matchPercentage = 85 ∨ r.matchPercentage = 70 := by
  rcases List.mem_filterMap.mp h with ⟨rec, _, hf⟩
  cases hT : env.searchTitleResult rec.title rec.year mediaType with
  | none => rw [hT] at hf; simp at hf
  | some media =>
    rw [hT] at hf
    have hm := (buildRecommendation_fields hf).2.1
    by_cases hj : jsTruthyS (some rec.explanation)
    · rw [if_pos hj] at hm; exact Or.inl hm
    · rw [if_neg hj] at hm; exact Or.inr hm

theorem getHeuristicRecommendations_mem {env : Env} {query : String} {analysis : AnalyzedInput}
    {options : RecommendationOptions} {r : MediaRecommendation}
    (h : r ∈ getHeuristicRecommendations env query analysis options) :
    ∃ media ∈ (searchMedia env query (heuristicSearchOptions analysis options)).1.take 10,
      r.id = media.id ∧
        r.matchPercentage = heuristicScore media.vote_average media.popularity := by
  simp only [getHeuristicRecommendations] at h
  rcases List.mem_filterMap.mp h with ⟨media, hmem, hf⟩
  refine ⟨media, hmem, ?_⟩
  cases hB : buildRecommendation env media options.mediaType options.region none with
  | none => rw [hB] at hf; simp at hf
  | some r0 =>
    rw [hB] at hf
    simp only [Option.map_some', Option.some.injEq] at hf
    have hid := (buildRecommendation_fields hB).1
    subst hf
    exact ⟨hid, rfl⟩

theorem aiResolved_mem {env : Env} {options : RecommendationOptions} {r : MediaRecommendation}
    (h : r ∈ aiResolved env options) : r.matchPercentage = 85 ∨ r.matchPercentage = 70 := by
  simp only [aiResolved] at h
  split at h
  · exact processAIRecommendations_mem h
  · simp at h

theorem mergedList_mem {env : Env} {userInput : String} {options : RecommendationOptions}
    {r : MediaRecommendation} (h : r ∈ mergedList env userInput options) :
    r ∈ aiResolved env options ∨
      r ∈ getHeuristicRecommendations env userInput (analyzeUserInput userInput) options := by
  simp only [mergedList] at h
  split at h
  · rcases List.mem_append.mp h with h1 | h2
    · exact Or.inl h1
    · exact Or.inr (List.mem_filter.mp h2).1
  · exact Or.inl h

/-! ### Bounds on the heuristic score -/

theorem heuristicScore_le_100 (v p : Rat) : heuristicScore v p ≤ 100 := by
  rw [heuristicScore_eq]
  have h : min 100 (60 + min 20 (v * 2) + min 20 (p / 100)) ≤ (100 : Rat) := min_le_left _ _
  have h2 : min 100 (60 + min 20 (v * 2) + min 20 (p / 100)) + 1/2 < ((101 : Int) : Rat) := by
    push_cast
    linarith
  have h3 := Int.floor_lt.mpr h2
  omega

theorem heuristicScore_ge_60 {v p : Rat} (hv : 0 ≤ v) (hp : 0 ≤ p) :
    60 ≤ heuristicScore v p := by
  rw [heuristicScore_eq]
  have h1 : (0 : Rat) ≤ min 20 (v * 2) := le_min (by norm_num) (by linarith)
  have h2 : (0 : Rat) ≤ min 20 (p / 100) := le_min (by norm_num) (div_nonneg hp (by norm_num))
  have h3 : ((60 : Int) : Rat) ≤ min 100 (60 + min 20 (v * 2) + min 20 (p / 100)) + 1/2 := by
    have hm : (60 : Rat) ≤ min 100 (60 + min 20 (v * 2) + min 20 (p / 100)) :=
      le_min (by norm_num) (by linarith)
    push_cast
    linarith
  exact Int.le_floor.mpr h3

theorem mergedList_match_le_100 {env : Env} {userInput : String}
    {options : RecommendationOptions} {r : MediaRecommendation}
    (h : r ∈ mergedList env userInput options) : r.matchPercentage ≤ 100 := by
  rcases mergedList_mem h with h | h
  · rcases aiResolved_mem h with h85 | h70 <;> omega
  · rcases getHeuristicRecommendations_mem h with ⟨m, _, _, hs⟩
    rw [hs]
    exact heuristicScore_le_100 _ _

/-! ### Uniqueness of catalog ids along the heuristic path -/

theorem dedupFilterResults_nodup (mediaType : MediaType) (l : List TMDBMedia) :
    ∀ seen : List Int,
      ((dedupFilterResults mediaType l seen).map (fun m => m.id)).Nodup ∧
        ∀ m ∈ dedupFilterResults mediaType l seen, ¬ m.id ∈ seen := by
  induction l with
  | nil => intro seen; simp [dedupFilterResults]
  | cons item rest ih =>
    intro seen
    simp only [dedupFilterResults]
    by_cases h1 : seen.contains item.id = true
    · rw [if_pos h1]
      exact ih seen
    · rw [if_neg h1]
      by_cases h2 : mediaType = MediaType.anime ∧ ¬ item.genre_ids.contains ANIMATION_GENRE_ID
      · rw [if_pos h2]
        exact ih seen
      · rw [if_neg h2]
        obtain ⟨hnd, hnotin⟩ := ih (item.id :: seen)
        have hitem : item.id ∉ seen := fun hmem => h1 (List.elem_eq_true_of_mem hmem)
        constructor
        · rw [List.map_cons]
          refine List.nodup_cons.mpr ⟨?_, hnd⟩
          intro hmem
          rcases List.mem_map.mp hmem with ⟨m, hm, hid⟩
          exact hnotin m hm (by rw [hid]; exact List.mem_cons_self _ _)
        · intro m hm
          rcases List.mem_cons.mp hm with rfl | hm'
          · exact hitem
          · exact fun hmem => hnotin m hm' (List.mem_cons_of_mem _ hmem)

theorem searchMedia_ids_nodup (env : Env) (query : String) (options : SearchOptions) :
    (((searchMedia env query options).1).map (fun m => m.id)).Nodup := by
  cases hG : env.genreMapFetch with
  | none => simp [searchMedia, hG]
  | some gm =>
    simp only [searchMedia, hG]
    exact (dedupFilterResults_nodup options.mediaType _ []).1

theorem filterMap_map_id_sublist {α β γ : Type} (f : α → Option β) (g : β → γ) (gg : α → γ)
    (hf : ∀ a b, f a = some b → g b = gg a) (l : List α) :
    List.Sublist ((l.filterMap f).map g) (l.map gg) := by
  induction l with
  | nil => simp
  | cons a l ih =>
    cases hfa : f a with
    | none =>
      simp only [List.filterMap_cons, hfa, List.map_cons]
      exact ih.cons _
    | some b =>
      simp only [List.filterMap_cons, hfa, List.map_cons]
      rw [hf a b hfa]
      exact ih.cons₂ _

theorem getHeuristicRecommendations_ids_sublist (env : Env) (query : String)
    (analysis : AnalyzedInput) (options : RecommendationOptions) :
    List.Sublist
      ((getHeuristicRecommendations env query analysis options).map (fun r => r.id))
      (((searchMedia env query (heuristicSearchOptions analysis options)).1.take 10).map
        (fun m => m.id)) := by
  simp only [getHeuristicRecommendations]
  apply filterMap_map_id_sublist
  intro media r hf
  cases hB : buildRecommendation env media options.mediaType options.region none with
  | none => rw [hB] at hf; simp at hf
  | some r0 =>
    rw [hB] at hf
    simp only [Option.map_some', Option.some.injEq] at hf
    subst hf
    exact (buildRecommendation_fields hB).1

theorem getHeuristicRecommendations_ids_nodup (env : Env) (query : String)
    (analysis : AnalyzedInput) (options : RecommendationOptions) :
    ((getHeuristicRecommendations env query analysis options).map (fun r => r.id)).Nodup := by
  have h1 := searchMedia_ids_nodup env query (heuristicSearchOptions analysis options)
  have h2 :
      List.Sublist
        (((searchMedia env query (heuristicSearchOptions analysis options)).1.take 10).map
          (fun m => m.id))
        (((searchMedia env query (heuristicSearchOptions analysis options)).1).map
          (fun m => m.id)) :=
    List.Sublist.map _ (List.take_sublist _ _)
  exact List.Nodup.sublist
    ((getHeuristicRecommendations_ids_sublist env query analysis options).trans h2) h1

theorem mergedList_ids_nodup (env : Env) (userInput : String) (options : RecommendationOptions)
    (h : ((aiResolved env options).map (fun r => r.id)).Nodup) :
    ((mergedList env userInput options).map (fun r => r.id)).Nodup := by
  simp only [mergedList]
  split
  · rw [List.map_append, List.nodup_append]
    refine ⟨h, ?_, ?_⟩
    · exact List.Nodup.sublist
        (List.Sublist.map _ (List.filter_sublist _))
        (getHeuristicRecommendations_ids_nodup env userInput (analyzeUserInput userInput)
          options)
    · intro a ha hb
      rcases List.mem_map.mp hb with ⟨r, hr, rfl⟩
      rcases List.mem_filter.mp hr with ⟨_, hpred⟩
      have hnot : ¬ ((aiResolved env options).map (fun r => r.id)).contains r.id = true := by
        simpa using hpred
      exact hnot (List.elem_eq_true_of_mem ha)
  · exact h

/-! ### Claim theorems -/

/-- C1: for every environment, input and options, every record in the final
list of `getRecommendations` has match percentage in (30, 100], the list is
sorted descending by match percentage, it is the 7-truncation of the stable
sort of the pre-sort list, the sort is stable (for each match value the
records with that value appear exactly as in the insertion-ordered pre-sort
list), and the final length is at most 7. -/
theorem C1_final_list_invariants (env : Env) (userInput : String)
    (options : RecommendationOptions) :
    (∀ r ∈ (getRecommendations env userInput options).1,
        30 < r.matchPercentage ∧ r.matchPercentage ≤ 100) ∧
    (getRecommendations env userInput options).1.Pairwise
        (fun a b => b.matchPercentage ≤ a.matchPercentage) ∧
    (getRecommendations env userInput options).1.length ≤ 7 ∧
    (getRecommendations env userInput options).1 =
      (sortByMatchDesc (preSortList env userInput options)).take 7 ∧
    ∀ v : Int,
      (sortByMatchDesc (preSortList env userInput options)).filter
          (fun r => r.matchPercentage == v) =
        (preSortList env userInput options).filter (fun r => r.matchPercentage == v) := by
  have hout : (getRecommendations env userInput options).1 =
      (sortByMatchDesc (preSortList env userInput options)).take 7 := rfl
  refine ⟨?_, ?_, ?_, hout, fun v => sortByMatchDesc_filter v _⟩
  · intro r hr
    rw [hout] at hr
    have hr1 : r ∈ sortByMatchDesc (preSortList env userInput options) :=
      List.mem_of_mem_take hr
    have hr2 : r ∈ preSortList env userInput options :=
      (sortByMatchDesc_perm _).mem_iff.mp hr1
    simp only [preSortList] at hr2
    rcases List.mem_filter.mp hr2 with ⟨hmem, hgt⟩
    exact ⟨by simpa using hgt, mergedList_match_le_100 hmem⟩
  · rw [hout]
    exact List.Pairwise.sublist (List.take_sublist _ _) (sortByMatchDesc_pairwise _)
  · rw [hout]
    exact List.length_take_le _ _

/-- Witness for C1 at a concrete environment: the AI-built record `recA` is
in the final list, and the theorem yields its bounds. -/
theorem C1_witness : 30 < recA.matchPercentage ∧ recA.matchPercentage ≤ 100 :=
  (C1_final_list_invariants envA "movie for tonight" optsMovie).1 recA (by decide)

/-- C2 counterexample: in `envDup`, two distinct AI candidates resolve via
the title lookup to the same catalog entry (id 1); `processAIRecommendations`
performs no within-path deduplication, so the final list carries id 1
twice — the claim is false as stated. -/
theorem C2_counterexample :
    ((getRecommendations envDup "movie for tonight" optsMovie).1.map (fun r => r.id)) =
        [1, 1] ∧
      ¬ ((getRecommendations envDup "movie for tonight" optsMovie).1.map
          (fun r => r.id)).Nodup := by
  constructor
  · decide
  · decide

/-- C2 amended: deduplication holds across the merge (heuristic records
whose id already occurs in the AI-path list are skipped) and within the
heuristic path (the gateway search deduplicates by id); hence whenever the
AI-resolved records themselves carry pairwise-distinct ids — which the code
does not enforce when two AI candidates resolve to the same entry — the
final list's ids are unique. -/
theorem C2_ids_nodup (env : Env) (userInput : String) (options : RecommendationOptions)
    (h : ((aiResolved env options).map (fun r => r.id)).Nodup) :
    (((getRecommendations env userInput options).1).map (fun r => r.id)).Nodup := by
  have hm : ((mergedList env userInput options).map (fun r => r.id)).Nodup :=
    mergedList_ids_nodup env userInput options h
  have hpre : ((preSortList env userInput options).map (fun r => r.id)).Nodup := by
    simp only [preSortList]
    exact List.Nodup.sublist (List.Sublist.map _ (List.filter_sublist _)) hm
  have hsort : ((sortByMatchDesc (preSortList env userInput options)).map
      (fun r => r.id)).Nodup :=
    ((sortByMatchDesc_perm _).map _).nodup_iff.mpr hpre
  have hout : (getRecommendations env userInput options).1 =
      (sortByMatchDesc (preSortList env userInput options)).take 7 := rfl
  rw [hout]
  exact List.Nodup.sublist (List.Sublist.map _ (List.take_sublist _ _)) hsort

/-- Witness for the amended C2 at a concrete environment: `envA` resolves
three distinct ids, and the theorem yields uniqueness of the final ids. -/
theorem C2_witness :
    (((getRecommendations envA "movie for tonight" optsMovie).1).map (fun r => r.id)).Nodup :=
  C2_ids_nodup envA "movie for tonight" optsMovie (by decide)

/-- C3: the heuristic fallback — the single `searchMedia` call of
`getHeuristicRecommendations` — is issued exactly when fewer than 3
AI-derived records were resolved and built; with 3 or more, it is never
issued. -/
theorem C3_fallback_exactly_when_insufficient (env : Env) (userInput : String)
    (options : RecommendationOptions) :
    ((getRecommendations env userInput options).2.searchMediaCalls = 1 ↔
        (aiResolved env options).length < 3) ∧
    ((getRecommendations env userInput options).2.searchMediaCalls = 0 ↔
        ¬ (aiResolved env options).length < 3) := by
  have h : (getRecommendations env userInput options).2.searchMediaCalls =
      (if (aiResolved env options).length < 3 then 1 else 0) := rfl
  rw [h]
  by_cases hc : (aiResolved env options).length < 3
  · rw [if_pos hc]
    exact ⟨⟨fun _ => hc, fun _ => rfl⟩, ⟨fun h0 => absurd h0 (by omega), fun hn => absurd hc hn⟩⟩
  · rw [if_neg hc]
    exact ⟨⟨fun h0 => absurd h0 (by omega), fun hlt => absurd hlt hc⟩, ⟨fun _ => hc, fun _ => rfl⟩⟩

/-- With the credential absent, `getGenAI` throws but `getAIRecommendations`
catches everything, returning a typed failure carrying the configuration
message. -/
theorem getAIRecommendations_noKey {g : GenEnv} (h : g.apiKey = none) :
    getAIRecommendations g =
      { recommendations := [], success := false,
        error := some "VITE_GEMINI_API_KEY is not set in environment variables" } := by
  cases g with
  | mk key resp =>
    simp only at h
    subst h
    rfl

/-- C4 amended: when the generative-service credential is absent, the
explicit configuration error is thrown by `getGenAI` but caught inside
`getAIRecommendations` (whose whole body is wrapped in `try/catch`), so
`getRecommendations` does not raise: the AI path contributes nothing and the
heuristic fallback runs, exactly as for an ordinary AI failure. -/
theorem C4_config_error_swallowed (env : Env) (userInput : String)
    (options : RecommendationOptions) (h : env.gen.apiKey = none) :
    getGenAI env.gen.apiKey =
        Except.error "VITE_GEMINI_API_KEY is not set in environment variables" ∧
    (getAIRecommendations env.gen).success = false ∧
    (getAIRecommendations env.gen).error =
        some "VITE_GEMINI_API_KEY is not set in environment variables" ∧
    aiResolved env options = [] ∧
    (getRecommendations env userInput options).2.searchMediaCalls = 1 := by
  have hAI := getAIRecommendations_noKey h
  have hRes : aiResolved env options = [] := by
    simp [aiResolved, hAI]
  refine ⟨by rw [h]; rfl, by rw [hAI], by rw [hAI], hRes, ?_⟩
  have hTr : (getRecommendations env userInput options).2.searchMediaCalls =
      (if (aiResolved env options).length < 3 then 1 else 0) := rfl
  rw [hTr, hRes]
  rfl

/-- Witness for the amended C4 at the concrete `envNoKey`. -/
theorem C4_witness :
    (getAIRecommendations envNoKey.gen).success = false ∧
    (getRecommendations envNoKey "movie for tonight" optsMovie).2.searchMediaCalls = 1 := by
  have h := C4_config_error_swallowed envNoKey "movie for tonight" optsMovie (by decide)
  exact ⟨h.2.1, h.2.2.2.2⟩

/-- C4 counterexample: with the credential absent, `getRecommendations`
returns normally — the very same heuristic-built result as under an
ordinary AI transport failure — instead of raising the configuration error,
which surfaces only as a swallowed typed message. -/
theorem C4_counterexample :
    getRecommendations envNoKey "movie for tonight" optsMovie =
        getRecommendations envFail "movie for tonight" optsMovie ∧
    (getRecommendations envNoKey "movie for tonight" optsMovie).1 = [recH] ∧
    (getAIRecommendations envNoKey.gen).error =
        some "VITE_GEMINI_API_KEY is not set in environment variables" := by
  refine ⟨by decide, by decide, by decide⟩

/-- C5 amended: the 3-token validation lives in the presentation layer's
`handleSubmit` (splitting the trimmed input on single spaces), which rejects
without invoking `getRecommendations` at all. -/
theorem C5_validation_in_ui (env : Env) (input : String) (options : RecommendationOptions)
    (h : tokenCount input < 3) :
    handleSubmit env input options = none := by
  simp [handleSubmit, h]

/-- Witness for the amended C5 at the concrete input `hi`. -/
theorem C5_witness : handleSubmit envA "hi" optsMovie = none :=
  C5_validation_in_ui envA "hi" optsMovie (by decide)

/-- C5 counterexample: on the 1-token input `hi`, `getRecommendations`
itself performs no validation — it issues the AI call (trace `aiCalls = 1`)
and returns a nonempty result rather than rejecting. -/
theorem C5_counterexample :
    tokenCount "hi" < 3 ∧
    (getRecommendations envA "hi" optsMovie).2.aiCalls = 1 ∧
    (getRecommendations envA "hi" optsMovie).1 ≠ [] := by
  refine ⟨by decide, by decide, by decide⟩

/-- C6: the heuristic path builds at most the first 10 gateway results —
every output record stems from the 10-truncation of the `searchMedia`
result list and carries exactly the heuristic score of that result's rating
and popularity — and the score is round(min(100, 60 + min(20, rating×2) +
min(20, popularity/100))), with JS rounding `⌊x + 1/2⌋`. -/
theorem C6_heuristic_formula (env : Env) (query : String) (analysis : AnalyzedInput)
    (options : RecommendationOptions) :
    (getHeuristicRecommendations env query analysis options).length ≤ 10 ∧
    (∀ r ∈ getHeuristicRecommendations env query analysis options,
      ∃ media ∈ (searchMedia env query (heuristicSearchOptions analysis options)).1.take 10,
        r.id = media.id ∧
          r.matchPercentage = heuristicScore media.vote_average media.popularity) ∧
    ∀ v p : Rat, heuristicScore v p =
        ⌊min 100 (60 + min 20 (v * 2) + min 20 (p / 100)) + 1/2⌋ := by
  refine ⟨?_, fun r hr => getHeuristicRecommendations_mem hr,
    fun v p => heuristicScore_eq v p⟩
  have h1 : (getHeuristicRecommendations env query analysis options).length ≤
      ((searchMedia env query (heuristicSearchOptions analysis options)).1.take 10).length := by
    simp only [getHeuristicRecommendations]
    exact List.length_filterMap_le _ _
  have h2 := List.length_take_le 10
    (searchMedia env query (heuristicSearchOptions analysis options)).1
  omega

/-- Witness for C6 at the concrete environment `envFail`, whose heuristic
output is the single record `recH` built from `mediaH`. -/
theorem C6_witness :
    recH.id = mediaH.id ∧
      recH.matchPercentage = heuristicScore mediaH.vote_average mediaH.popularity := by
  obtain ⟨m, hm, hid, hs⟩ :=
    (C6_heuristic_formula envFail "movie for tonight" analysis0 optsMovie).2.1 recH (by decide)
  have hm' : m = mediaH := by
    have ht : (searchMedia envFail "movie for tonight"
        (heuristicSearchOptions analysis0 optsMovie)).1.take 10 = [mediaH] := by decide
    rw [ht] at hm
    simpa using hm
  rw [hm'] at hid hs
  exact ⟨hid, hs⟩

/-- C7 counterexample: an explicitly supplied empty rationale is JS-falsy,
so `buildRecommendation` assigns base 70 — not 85 — and the record's
`aiExplanation` field holds the (supplied) empty string rather than being
absent. -/
theorem C7_counterexample :
    (buildRecommendation envA mediaA MediaType.movie "IN" (some "")).map
        (fun r => r.matchPercentage) = some 70 ∧
    (buildRecommendation envA mediaA MediaType.movie "IN" (some "")).map
        (fun r => r.aiExplanation) = some (some "") := by
  refine ⟨by decide, by decide⟩

/-- C7 amended: `buildRecommendation` assigns base 85 exactly when the
supplied rationale is JS-truthy (present and non-empty) and 70 otherwise;
the record's `aiExplanation` field equals the supplied argument, so it is
absent exactly when no rationale was supplied. -/
theorem C7_base_score (env : Env) (media : TMDBMedia) (mediaType : MediaType)
    (region : String) (aiExplanation : Option String) (r : MediaRecommendation)
    (h : buildRecommendation env media mediaType region aiExplanation = some r) :
    (r.matchPercentage = if jsTruthyS aiExplanation then 85 else 70) ∧
    r.aiExplanation = aiExplanation ∧
    (aiExplanation = none → r.aiExplanation = none) := by
  obtain ⟨_, hm, he⟩ := buildRecommendation_fields h
  exact ⟨hm, he, fun hn => by rw [he, hn]⟩

/-- Witness for the amended C7: building from `mediaB` with no rationale
yields base 70 and an absent `aiExplanation`. -/
theorem C7_witness : recB70.matchPercentage = 70 ∧ recB70.aiExplanation = none := by
  obtain ⟨hm, _, ha⟩ :=
    C7_base_score envA mediaB MediaType.movie "IN" none recB70 (by decide)
  exact ⟨hm, ha rfl⟩

/-- C8: whenever `searchMedia` issues its discover query, the parameters
use vote-count floor 50 with rating-first sort under the hidden-gems flag,
and floor 100 with popularity-first sort otherwise. -/
theorem C8_discover_params (env : Env) (query : String) (options : SearchOptions)
    (p : DiscoverParams) (h : (searchMedia env query options).2 = some p) :
    p.voteCountGte = (if options.hiddenGems then 50 else 100) ∧
    p.sortBy = (if options.hiddenGems then "vote_average.desc" else "popularity.desc") := by
  cases hG : env.genreMapFetch with
  | none => simp [searchMedia, hG] at h
  | some gm =>
    simp only [searchMedia, hG, Option.some.injEq] at h
    subst h
    exact ⟨rfl, rfl⟩

/-- Witness for C8 at a concrete hidden-gems search. -/
theorem C8_witness : pHidden.voteCountGte = 50 ∧ pHidden.sortBy = "vote_average.desc" := by
  have h : (searchMedia envFail "movie for tonight" soHidden).2 = some pHidden := by decide
  have hc := C8_discover_params envFail "movie for tonight" soHidden pHidden h
  exact ⟨hc.1, hc.2⟩

/-- C9: the analyzer's intensity is 5 by default, 8 on a high-intensity
keyword hit, 3 on a low-intensity keyword hit — and because the low check
runs second, 3 wins whenever keywords of both lists occur. -/
theorem C9_intensity_policy (input : String) :
    (analyzeUserInput input).intensity =
      (if lowIntensityWords.any (fun word => chSub word.data (jsLower input)) then 3
       else if highIntensityWords.any (fun word => chSub word.data (jsLower input)) then 8
       else 5) := by
  simp only [analyzeUserInput]
  by_cases hl : (lowIntensityWords.any (fun word => chSub word.data (jsLower input))) = true <;>
    by_cases hh :
      (highIntensityWords.any (fun word => chSub word.data (jsLower input))) = true <;>
    simp [hl, hh]

/-- C10: when the gateway results carry nonnegative rating and popularity,
every successfully built heuristic record's match percentage lies in
[60, 100]; consequently the final > 30 filter keeps every heuristic-built
record. -/
theorem C10_heuristic_in_range (env : Env) (query : String) (analysis : AnalyzedInput)
    (options : RecommendationOptions)
    (h : ∀ m ∈ (searchMedia env query (heuristicSearchOptions analysis options)).1,
        0 ≤ m.vote_average ∧ 0 ≤ m.popularity) :
    (∀ r ∈ getHeuristicRecommendations env query analysis options,
        60 ≤ r.matchPercentage ∧ r.matchPercentage ≤ 100) ∧
    (getHeuristicRecommendations env query analysis options).filter
        (fun r => 30 < r.matchPercentage) =
      getHeuristicRecommendations env query analysis options := by
  have hall : ∀ r ∈ getHeuristicRecommendations env query analysis options,
      60 ≤ r.matchPercentage ∧ r.matchPercentage ≤ 100 := by
    intro r hr
    rcases getHeuristicRecommendations_mem hr with ⟨m, hm, _, hs⟩
    rcases h m (List.mem_of_mem_take hm) with ⟨hv, hp⟩
    rw [hs]
    exact ⟨heuristicScore_ge_60 hv hp, heuristicScore_le_100 _ _⟩
  refine ⟨hall, ?_⟩
  rw [List.filter_eq_self]
  intro r hr
  have h60 := (hall r hr).1
  simp only [decide_eq_true_eq]
  omega

/-- Witness for C10 at the concrete heuristic record `recH`. -/
theorem C10_witness : 60 ≤ recH.matchPercentage ∧ recH.matchPercentage ≤ 100 :=
  (C10_heuristic_in_range envFail "movie for tonight" analysis0 optsMovie (by decide)).1
    recH (by decide)
